import Mathlib

/-!
Verification of the proxy-render relay server (`src/server.js`).

The development shallowly embeds the Express application: requests are the
values Express hands to the route handlers (method, path, raw query string,
parsed query, Node-normalised headers), and the behaviour of each handler is
transcribed as a pure function producing either a JSON error response or the
outbound request that `proxyRequest` would issue.  Platform primitives used by
the source (`new URL`, `decodeURIComponent`, `Buffer.from(_, 'base64')`,
UTF-8) are modelled explicitly below for the ASCII / non-IPv6 / non-IDN
fragment the program exercises; each model notes its scope.
-/

namespace ProxyRender

/-! ### Character and list primitives -/

/-- ASCII lowercasing of one character, as JavaScript `toLowerCase` acts on
ASCII input (non-ASCII case mapping is outside the modelled fragment). -/
def jsToLowerChar (c : Char) : Char :=
  if 'A' ≤ c ∧ c ≤ 'Z' then Char.ofNat (c.toNat + 32) else c

/-- ASCII lowercasing of a character list. -/
def lowerL (l : List Char) : List Char := l.map jsToLowerChar

/-- ASCII lowercasing of a string (JS `String.prototype.toLowerCase`). -/
def jsToLower (s : String) : String := ⟨lowerL s.data⟩

/-- JS `s.startsWith(p)`. -/
def jsStartsWith (s p : String) : Bool := p.data.isPrefixOf s.data

/-- JS `s.slice(n)` for a character offset `n`. -/
def jsSlice (n : Nat) (s : String) : String := ⟨s.data.drop n⟩

/-- JS `s.replace(/^pre/, '')`: drop `pre` when it is a leading match. -/
def jsStripLead (pre s : String) : String :=
  if jsStartsWith s pre then ⟨s.data.drop pre.data.length⟩ else s

/-- JS `s.replace(/\/$/, '')`: drop one trailing slash. -/
def jsStripTrailSlash (s : String) : String :=
  if s.data.getLast? = some '/' then ⟨s.data.dropLast⟩ else s

/-- Split a character list on a separator; always returns at least one piece. -/
def splitOnChar (sep : Char) : List Char → List (List Char)
  | [] => [[]]
  | c :: rest =>
    let r := splitOnChar sep rest
    if c = sep then [] :: r
    else
      match r with
      | h :: t => (c :: h) :: t
      | [] => [[c]]

/-- Split at the first occurrence of `sep`: the part before it and, when the
separator occurs, the part after it. -/
def splitFirstAt (sep : Char) : List Char → List Char × Option (List Char)
  | [] => ([], none)
  | c :: rest =>
    if c = sep then ([], some rest)
    else
      let (pre, post) := splitFirstAt sep rest
      (c :: pre, post)

/-- Join character-list pieces with a separator character. -/
def joinWithChar (sep : Char) : List (List Char) → List Char
  | [] => []
  | [p] => p
  | p :: rest => p ++ sep :: joinWithChar sep rest

/-- Decimal digits to a number; `none` when empty or a non-digit occurs. -/
def digitsToNat : List Char → Option Nat
  | [] => none
  | l => go l 0
where
  go : List Char → Nat → Option Nat
  | [], acc => some acc
  | c :: rest, acc =>
    if '0' ≤ c ∧ c ≤ '9' then go rest (acc * 10 + (c.toNat - '0'.toNat))
    else none

/-- Value of one hexadecimal digit. -/
def hexVal (c : Char) : Option Nat :=
  if '0' ≤ c ∧ c ≤ '9' then some (c.toNat - '0'.toNat)
  else if 'a' ≤ c ∧ c ≤ 'f' then some (c.toNat - 'a'.toNat + 10)
  else if 'A' ≤ c ∧ c ≤ 'F' then some (c.toNat - 'A'.toNat + 10)
  else none

/-- Upper-case hexadecimal digit for a value below 16. -/
def hexUp (n : Nat) : Char :=
  if n < 10 then Char.ofNat ('0'.toNat + n) else Char.ofNat ('A'.toNat + (n - 10))

/-! ### UTF-8 (bytes are modelled as `Nat` below 256) -/

/-- UTF-8 encoding of one scalar value. -/
def utf8Encode (c : Char) : List Nat :=
  let n := c.toNat
  if n < 0x80 then [n]
  else if n < 0x800 then [0xC0 + n / 64, 0x80 + n % 64]
  else if n < 0x10000 then [0xE0 + n / 4096, 0x80 + (n / 64) % 64, 0x80 + n % 64]
  else [0xF0 + n / 262144, 0x80 + (n / 4096) % 64, 0x80 + (n / 64) % 64, 0x80 + n % 64]

/-- Whether a byte is a UTF-8 continuation byte in `[lo, hi]`. -/
def contIn (lo hi b : Nat) : Bool := decide (lo ≤ b ∧ b ≤ hi)

/-- Valid second byte ranges for a three-byte UTF-8 lead. -/
def threeOk (b b2 : Nat) : Bool :=
  if b = 0xE0 then contIn 0xA0 0xBF b2
  else if b = 0xED then contIn 0x80 0x9F b2
  else contIn 0x80 0xBF b2

/-- Valid second byte ranges for a four-byte UTF-8 lead. -/
def fourOk (b b2 : Nat) : Bool :=
  if b = 0xF0 then contIn 0x90 0xBF b2
  else if b = 0xF4 then contIn 0x80 0x8F b2
  else contIn 0x80 0xBF b2

/-- Fuel-indexed UTF-8 decoder; every step consumes at least one byte, so a
fuel of the byte count suffices.  With `strict` it fails on any malformed
sequence (the behaviour `decodeURIComponent` needs); otherwise a malformed
lead byte decodes to U+FFFD and decoding resumes at the next byte
(approximating Node's `toString('utf8')`, which the claims only exercise on
well-formed input). -/
def utf8DecF (strict : Bool) : Nat → List Nat → Option (List Char)
  | _, [] => some []
  | 0, _ :: _ => none
  | fuel + 1, b :: bs =>
    if b < 0x80 then
      (utf8DecF strict fuel bs).map (Char.ofNat b :: ·)
    else if contIn 0xC2 0xDF b then
      match bs with
      | b2 :: bs2 =>
        if contIn 0x80 0xBF b2 then
          (utf8DecF strict fuel bs2).map (Char.ofNat ((b - 0xC0) * 64 + (b2 - 0x80)) :: ·)
        else if strict then none else (utf8DecF strict fuel bs).map (Char.ofNat 0xFFFD :: ·)
      | [] => if strict then none else some [Char.ofNat 0xFFFD]
    else if contIn 0xE0 0xEF b then
      match bs with
      | b2 :: b3 :: bs3 =>
        if threeOk b b2 ∧ contIn 0x80 0xBF b3 then
          (utf8DecF strict fuel bs3).map
            (Char.ofNat ((b - 0xE0) * 4096 + (b2 - 0x80) * 64 + (b3 - 0x80)) :: ·)
        else if strict then none else (utf8DecF strict fuel bs).map (Char.ofNat 0xFFFD :: ·)
      | _ => if strict then none else (utf8DecF strict fuel bs).map (Char.ofNat 0xFFFD :: ·)
    else if contIn 0xF0 0xF4 b then
      match bs with
      | b2 :: b3 :: b4 :: bs4 =>
        if fourOk b b2 ∧ contIn 0x80 0xBF b3 ∧ contIn 0x80 0xBF b4 then
          (utf8DecF strict fuel bs4).map
            (Char.ofNat ((b - 0xF0) * 262144 + (b2 - 0x80) * 4096 + (b3 - 0x80) * 64 + (b4 - 0x80)) :: ·)
        else if strict then none else (utf8DecF strict fuel bs).map (Char.ofNat 0xFFFD :: ·)
      | _ => if strict then none else (utf8DecF strict fuel bs).map (Char.ofNat 0xFFFD :: ·)
    else if strict then none else (utf8DecF strict fuel bs).map (Char.ofNat 0xFFFD :: ·)

/-- UTF-8 decoding of a byte list (see `utf8DecF`). -/
def utf8Dec (strict : Bool) (bs : List Nat) : Option (List Char) :=
  utf8DecF strict bs.length bs

/-! ### Percent decoding / encoding -/

/-- Lenient percent decoding to bytes, as the WHATWG URL parser applies it:
a `%` not followed by two hex digits stays literal; other characters
contribute their UTF-8 bytes. -/
def pctDecode : List Char → List Nat
  | [] => []
  | '%' :: a :: b :: rest2 =>
    match hexVal a, hexVal b with
    | some ha, some hb => (ha * 16 + hb) :: pctDecode rest2
    | _, _ => '%'.toNat :: pctDecode (a :: b :: rest2)
  | '%' :: rest => '%'.toNat :: pctDecode rest
  | c :: rest => utf8Encode c ++ pctDecode rest

/-- Strict percent decoding to bytes: a `%` not followed by two hex digits
fails (the `URIError` behaviour of `decodeURIComponent`). -/
def pctDecodeStrict : List Char → Option (List Nat)
  | [] => some []
  | '%' :: a :: b :: rest2 =>
    match hexVal a, hexVal b with
    | some ha, some hb => (pctDecodeStrict rest2).map ((ha * 16 + hb) :: ·)
    | _, _ => none
  | '%' :: _ => none
  | c :: rest => (pctDecodeStrict rest).map (utf8Encode c ++ ·)

/-- JS `decodeURIComponent`: strict percent decoding followed by strict UTF-8
decoding; `none` models the thrown `URIError` (which Express converts into an
internal-error response). -/
def decodeURIComponent (s : String) : Option String := do
  let bytes ← pctDecodeStrict s.data
  let chars ← utf8Dec true bytes
  pure ⟨chars⟩

/-- Percent-encode one byte as `%XX` with upper-case hex. -/
def pctByte (b : Nat) : List Char := ['%', hexUp (b / 16), hexUp (b % 16)]

/-- Whether a character is an ASCII letter or digit. -/
def isAlnum (c : Char) : Bool :=
  decide (('a' ≤ c ∧ c ≤ 'z') ∨ ('A' ≤ c ∧ c ≤ 'Z') ∨ ('0' ≤ c ∧ c ≤ '9'))

/-! ### application/x-www-form-urlencoded (URLSearchParams) -/

/-- Decode one form-urlencoded token: `+` means space, then percent decoding
and UTF-8 (lenient, as the WHATWG form decoder is). -/
def formDecodeToken (l : List Char) : List Char :=
  let plussed := l.map (fun c => if c = '+' then ' ' else c)
  ((utf8Dec false (pctDecode plussed)).getD [])

/-- Parse a raw query string (without `?`) into `URLSearchParams` pairs. -/
def formParse (l : List Char) : List (String × String) :=
  (splitOnChar '&' l).filterMap fun piece =>
    if piece = [] then none
    else
      let (n, v) := splitFirstAt '=' piece
      some (⟨formDecodeToken n⟩, ⟨formDecodeToken (v.getD [])⟩)

/-- Form-urlencode one token (the `URLSearchParams` serialiser's escaping). -/
def formEncodeToken (l : List Char) : List Char :=
  l.foldr (fun c acc =>
    (if isAlnum c ∨ c = '*' ∨ c = '-' ∨ c = '.' ∨ c = '_' then [c]
     else if c = ' ' then ['+']
     else ((utf8Encode c).map pctByte).flatten) ++ acc) []

/-- Serialise `URLSearchParams` pairs back to a query string (no `?`). -/
def formSerialize (ps : List (String × String)) : String :=
  ⟨joinWithChar '&' (ps.map fun p => formEncodeToken p.1.data ++ '=' :: formEncodeToken p.2.data)⟩

/-- The `search` component regenerated from pairs: empty, or `?` + serial. -/
def searchOf (ps : List (String × String)) : String :=
  if ps = [] then "" else "?" ++ formSerialize ps

/-! ### Node base64 (`Buffer.from(s, 'base64').toString('utf8')`) -/

/-- Node's forgiving base64 alphabet (standard and URL-safe); characters
outside it, including `=` padding, are skipped. -/
def b64Val (c : Char) : Option Nat :=
  if 'A' ≤ c ∧ c ≤ 'Z' then some (c.toNat - 'A'.toNat)
  else if 'a' ≤ c ∧ c ≤ 'z' then some (c.toNat - 'a'.toNat + 26)
  else if '0' ≤ c ∧ c ≤ '9' then some (c.toNat - '0'.toNat + 52)
  else if c = '+' ∨ c = '-' then some 62
  else if c = '/' ∨ c = '_' then some 63
  else none

/-- Decode a list of 6-bit values into bytes, 4 at a time; a final group of
2 or 3 values yields 1 or 2 bytes, a lone value is dropped (Node behaviour). -/
def b64Groups : List Nat → List Nat
  | a :: b :: c :: d :: rest =>
    (a * 4 + b / 16) :: ((b % 16) * 16 + c / 4) :: ((c % 4) * 64 + d) :: b64Groups rest
  | [a, b, c] => [a * 4 + b / 16, (b % 16) * 16 + c / 4]
  | [a, b] => [a * 4 + b / 16]
  | _ => []

/-- Node `Buffer.from(s, 'base64')` as a byte list. -/
def b64DecodeBytes (s : String) : List Nat :=
  b64Groups (s.data.filterMap b64Val)

/-- Node `Buffer.from(s, 'base64').toString('utf8')`. -/
def b64ToUtf8 (s : String) : String :=
  ⟨(utf8Dec false (b64DecodeBytes s)).getD []⟩

/-! ### WHATWG URL (`new URL`), modelled for absolute http/https URLs

The source only ever passes `new URL` a string that begins with `http://` or
`https://` (case-insensitively), because `proxyRequest` prepends `https://`
otherwise.  The model below follows the WHATWG basic URL parser on that
fragment with these documented restrictions: hosts must be ASCII after
percent-decoding (internationalised domain names are out of scope), IPv6
bracket hosts are rejected, numeric hosts are accepted only as plain decimal
dotted quads (hex/octal/short IPv4 forms are out of scope), and `%2e` is not
recognised as a dot segment. -/

/-- Strip leading and trailing C0-control/space characters, as the URL parser
does before parsing. -/
def trimEnds (l : List Char) : List Char :=
  ((l.dropWhile fun c => decide (c.toNat ≤ 0x20)).reverse.dropWhile
    fun c => decide (c.toNat ≤ 0x20)).reverse

/-- Forbidden domain code points of the URL Standard (ASCII part). -/
def forbiddenHostChar (c : Char) : Bool :=
  decide (c.toNat < 0x20) || c == ' ' || c == '#' || c == '%' || c == '/' ||
  c == ':' || c == '<' || c == '>' || c == '?' || c == '@' || c == '[' ||
  c == '\\' || c == ']' || c == '^' || c == '|' || decide (c.toNat = 0x7F)

/-- ASCII digit test. -/
def isDigitChar (c : Char) : Bool := decide ('0' ≤ c ∧ c ≤ '9')

/-- A decimal IPv4 octet: digits without a leading zero, value at most 255. -/
def decOctet (l : List Char) : Bool :=
  (match l with
   | ['0'] => true
   | '0' :: _ => false
   | _ => l.all isDigitChar) &&
  (match digitsToNat l with
   | some v => decide (v ≤ 255)
   | none => false)

/-- The URL Standard's ends-in-a-number host handling, restricted to plain
decimal dotted quads: when the last label is numeric the host must be a valid
decimal IPv4 address (a single trailing dot is dropped first); otherwise the
host is kept as a domain. -/
def ipv4Check (host : List Char) : Option (List Char) :=
  let labels := splitOnChar '.' host
  let labels' :=
    if labels.length > 1 ∧ labels.getLast? = some [] then labels.dropLast else labels
  match labels'.getLastD [] with
  | [] => some host
  | last =>
    if last.all isDigitChar then
      if labels'.length = 4 ∧ labels'.all decOctet then some (joinWithChar '.' labels')
      else none
    else some host

/-- Characters percent-encoded in a serialised path segment (the URL path
percent-encode set, ASCII part; non-ASCII is encoded as UTF-8). -/
def pathEncChar (c : Char) : List Char :=
  if decide (c.toNat < 0x20) || decide (c.toNat ≥ 0x7F) || c == ' ' || c == '"' ||
     c == '<' || c == '>' || c == Char.ofNat 0x60 || c == Char.ofNat 0x7B ||
     c == Char.ofNat 0x7D || c == '?' || c == '#' then
    ((utf8Encode c).map pctByte).flatten
  else [c]

/-- Dot-segment removal over the path segments after the leading slash; a
final `.` or `..` leaves a trailing empty segment, as in the URL Standard. -/
def remDots (acc : List (List Char)) : List (List Char) → List (List Char)
  | [] => acc
  | [s] =>
    if s = ['.', '.'] then acc.dropLast ++ [[]]
    else if s = ['.'] then acc ++ [[]]
    else acc ++ [s]
  | s :: rest =>
    if s = ['.', '.'] then remDots acc.dropLast rest
    else if s = ['.'] then remDots acc rest
    else remDots (acc ++ [s]) rest

/-- Serialised pathname from the raw path part (which is empty or begins with
`/` or `\`): split on slashes, remove dot segments, percent-encode. -/
def buildPath (cs : List Char) : String :=
  let flat := cs.map fun c => if c = '\\' then '/' else c
  match splitOnChar '/' flat with
  | [] => "/"
  | [_] => "/"
  | _ :: segs =>
    ⟨((remDots [] segs).map fun s => '/' :: (s.map pathEncChar).flatten).flatten⟩

/-- A parsed absolute http/https URL: the components of the WHATWG `URL`
object that `proxyRequest` reads (`protocol`, `hostname`, `port`, `pathname`,
`searchParams`).  `port` is `none` when absent or equal to the scheme
default, matching `url.port === ''`. -/
structure JSURL where
  scheme : String
  hostname : String
  port : Option Nat
  pathname : String
  queryPairs : List (String × String)
deriving DecidableEq, Repr

/-- `url.host`: hostname plus the explicit non-default port. -/
def JSURL.host (u : JSURL) : String :=
  match u.port with
  | none => u.hostname
  | some p => u.hostname ++ ":" ++ Nat.repr p

/-- `new URL(input)` for the absolute http/https fragment described above;
`none` models the thrown `TypeError [ERR_INVALID_URL]`. -/
def jsURL (input : String) : Option JSURL :=
  let cs0 := input.data.filter fun c => decide (c.toNat ≠ 9 ∧ c.toNat ≠ 10 ∧ c.toNat ≠ 13)
  let cs := trimEnds cs0
  let sch : Option (Bool × List Char) :=
    if lowerL (cs.take 8) = "https://".data then some (true, cs.drop 8)
    else if lowerL (cs.take 7) = "http://".data then some (false, cs.drop 7)
    else none
  match sch with
  | none => none
  | some (https, rest0) =>
    let rest1 := rest0.dropWhile fun c => c == '/' || c == '\\'
    let auth := rest1.takeWhile fun c => !(c == '/' || c == '\\' || c == '?' || c == '#')
    let rest2 := rest1.drop auth.length
    let hostport := (splitOnChar '@' auth).getLastD []
    if hostport.any (fun c => c == '[' || c == ']') then none
    else
      let (hostRaw, portPart) := splitFirstAt ':' hostport
      let hostBytes := pctDecode hostRaw
      if hostBytes.any (fun b => decide (0x7F ≤ b)) then none
      else
        let hostChars := hostBytes.map fun b => jsToLowerChar (Char.ofNat b)
        if hostChars = [] then none
        else if hostChars.any forbiddenHostChar then none
        else
          match ipv4Check hostChars with
          | none => none
          | some host =>
            let dport := if https then 443 else 80
            let portRes : Option (Option Nat) :=
              match portPart with
              | none => some none
              | some [] => some none
              | some ps =>
                match digitsToNat ps with
                | none => none
                | some n =>
                  if n ≤ 65535 then some (if n = dport then none else some n) else none
            match portRes with
            | none => none
            | some port? =>
              let pathRaw := rest2.takeWhile fun c => !(c == '?' || c == '#')
              let rest3 := rest2.drop pathRaw.length
              let queryRaw :=
                if rest3.head? = some '?' then (rest3.drop 1).takeWhile (fun c => !(c == '#'))
                else []
              some { scheme := if https then "https" else "http"
                   , hostname := ⟨host⟩
                   , port := port?
                   , pathname := buildPath pathRaw
                   , queryPairs := formParse queryRaw }

/-! ### The Express application (`src/server.js`)

A `Request` is what Express hands the handlers: `method`, `path` (`req.path`,
no query string), `search` (the raw query-string part of the request target,
`""` or starting with `?`, so `req.originalUrl = path ++ search`), `query`
(`req.query` as parsed by Express; modelled for scalar, non-repeated
parameters), and `headers` (`req.headers`; Node lower-cases incoming header
names and the model treats each key as carrying a single string value). -/

structure Request where
  method : String
  path : String
  search : String
  query : List (String × String)
  headers : List (String × String)
deriving DecidableEq, Repr

/-- `req.originalUrl`. -/
def Request.originalUrl (req : Request) : String := req.path ++ req.search

/-- First-match lookup in a JS-object-like association list. -/
def objGet (o : List (String × String)) (k : String) : Option String :=
  (o.find? fun p => p.1 == k).map (·.2)

/-- JS object assignment `o[k] = v`: overwrite an existing key, else append. -/
def objSet (o : List (String × String)) (k v : String) : List (String × String) :=
  if o.any (fun p => p.1 == k) then
    o.map fun p => if p.1 == k then (k, v) else p
  else o ++ [(k, v)]

/-- `req.headers[k]` (keys are compared verbatim; Node delivers them
lower-cased). -/
def hdr (req : Request) (k : String) : Option String := objGet req.headers k

/-- `req.query[k]`. -/
def qget (req : Request) (k : String) : Option String := objGet req.query k

/-- The process configuration this model needs: `PROXY_PASSWORD`
(empty when the variable is unset, as in `process.env.PROXY_PASSWORD || ''`). -/
structure Config where
  proxyPassword : String
deriving Repr

/-- What a handler does with the response: answer directly with a status and
an optional JSON `error` field, or issue the outbound request built by
`proxyRequest`. -/
structure Outbound where
  secure : Bool
  hostname : String
  port : Nat
  path : String
  method : String
  headers : List (String × String)
  timeoutMs : Nat
deriving DecidableEq, Repr

inductive Action where
  | respond (status : Nat) (errorField : Option String)
  | forward (ob : Outbound)
deriving DecidableEq, Repr

/-! #### Password protection (`requirePassword`, lines 17-45) -/

/-- The password taken from decoded Basic credentials: the text between the
first and second colon (`decoded.split(':')[1]`), or the whole string when it
has no colon. -/
def basicPassword (decoded : String) : String :=
  if decoded.data.contains ':' then ⟨(splitOnChar ':' decoded.data).getD 1 []⟩
  else decoded

/-- The credential the gate compares, following the source's `||` chain
(`x-proxy-password` header, `password` query parameter, `Bearer` token) with
JS falsiness for the empty string, then the `Basic` fallback. -/
def effectiveProvided (req : Request) : String :=
  let h := (hdr req "x-proxy-password").getD ""
  let q := (qget req "password").getD ""
  let a := (hdr req "authorization").getD ""
  let provided :=
    if h ≠ "" then h
    else if q ≠ "" then q
    else if jsStartsWith a "Bearer " then jsSlice 7 a
    else ""
  if provided = "" ∧ jsStartsWith a "Basic " then
    basicPassword (b64ToUtf8 (jsSlice 6 a))
  else provided

/-- The password middleware: `none` means `next()` (the request proceeds),
`some (s, e)` a JSON rejection with status `s` and `error` field `e`. -/
def requirePassword (cfg : Config) (req : Request) : Option (Nat × String) :=
  if cfg.proxyPassword = "" then none
  else if req.path = "/" ∨ req.path = "/health" then none
  else if effectiveProvided req = cfg.proxyPassword then none
  else some (401, "Unauthorized")

/-! #### Universal proxy handler (`proxyRequest`, lines 72-153) -/

/-- The header skip-set of `proxyRequest` (lines 89-95). -/
def skipHeaders : List String :=
  ["host", "connection", "keep-alive", "transfer-encoding",
   "x-target-url", "x-api-key", "x-proxy-password", "x-forwarded-for",
   "x-forwarded-proto", "x-forwarded-host", "x-render-origin-server",
   "cf-connecting-ip", "cf-ray", "cf-visitor", "cdn-loop",
   "rndr-id", "render-proxy-ttl"]

/-- Whether one inbound header survives the filter of lines 98-103: not in
the skip-set, and not a `Basic` authorization header. -/
def keepHeader (k v : String) : Bool :=
  !(skipHeaders.contains (jsToLower k)) &&
  !(jsToLower k == "authorization" && jsStartsWith v "Basic ")

/-- Outgoing headers: filter the inbound headers, then `outHeaders['host'] =
parsed.host` (line 104). -/
def buildOutHeaders (hs : List (String × String)) (targetHost : String) :
    List (String × String) :=
  objSet (hs.foldl (fun acc p => if keepHeader p.1 p.2 then objSet acc p.1 p.2 else acc) [])
    "host" targetHost

/-- The outbound query pairs: the target URL's own query after
`parsed.searchParams.delete('password')` (line 108). -/
def outQueryPairs (u : JSURL) : List (String × String) :=
  u.queryPairs.filter fun p => !(p.1 == "password")

/-- The outbound request `proxyRequest` issues for a successfully parsed
target (lines 104-118). -/
def mkOutbound (u : JSURL) (req : Request) : Outbound :=
  { secure := u.scheme = "https"
  , hostname := u.hostname
  , port := u.port.getD (if u.scheme = "https" then 443 else 80)
  , path := u.pathname ++ searchOf (outQueryPairs u)
  , method := req.method
  , headers := buildOutHeaders req.headers (JSURL.host u)
  , timeoutMs := 120000 }

/-- The scheme-coercion regex test `/^https?:\/\//i` (line 77). -/
def hasHttpScheme (t : String) : Bool :=
  lowerL (t.data.take 7) = "http://".data || lowerL (t.data.take 8) = "https://".data

/-- Line 77-79: prepend `https://` when the regex does not match. -/
def coerceScheme (t : String) : String :=
  if hasHttpScheme t then t else "https://" ++ t

/-- `proxyRequest(targetUrl, req, res)` up to the point the outbound request
is issued: `none`/`''` → 400 MissingTarget, parse failure → 400 InvalidTarget
carrying the offending (coerced) string, else the outbound request. -/
def proxyAction (target : Option String) (req : Request) : Action :=
  match target with
  | none => .respond 400 (some "Missing target URL")
  | some t =>
    if t = "" then .respond 400 (some "Missing target URL")
    else
      let t' := coerceScheme t
      match jsURL t' with
      | none => .respond 400 (some ("Invalid URL: " ++ t'))
      | some u => .forward (mkOutbound u req)

/-! #### Routing (lines 48-217)

Express 4 routes as registered: `GET /health`, `GET /`, the five provider
`app.all` wildcards, `app.all('/proxy')`, `app.all('/proxy/*')`, and the
`app.all('*')` catch-all.  Express matching is case-insensitive and tolerates
one trailing slash on literal routes (so `'/'` also matches `//`, `/health`
also matches `/health/`, `/proxy` also matches `/proxy/`); `app.get` also
serves `HEAD`.  The
`/proxy/*` handler then applies its own case-sensitive regex
`/^\/proxy\/(.+)/` to `req.path`. -/

/-- One provider row of the gateway table: route prefix and fixed origin. -/
def providers : List (String × String) :=
  [("/openai", "https://api.openai.com"),
   ("/openrouter", "https://openrouter.ai"),
   ("/perplexity", "https://api.perplexity.ai"),
   ("/anthropic", "https://api.anthropic.com"),
   ("/gemini", "https://generativelanguage.googleapis.com")]

/-- Where the router dispatches a request. -/
inductive Routed where
  | health
  | info
  | proxy (target : Option String)
  | uriError
  | notFound
deriving DecidableEq, Repr

/-- JS `a || b` over possibly-absent strings, with `''` falsy. -/
def jsOrStr (a b : Option String) : Option String :=
  match a with
  | some s => if s = "" then b else some s
  | none => b

/-- The route table dispatch, in registration order. -/
def route (req : Request) : Routed :=
  let lp := jsToLower req.path
  if (req.method = "GET" ∨ req.method = "HEAD") ∧ (lp = "/health" ∨ lp = "/health/") then
    .health
  else if (req.method = "GET" ∨ req.method = "HEAD") ∧ (lp = "/" ∨ lp = "//") then
    .info
  else if jsStartsWith lp "/openai/" then
    .proxy (some ("https://api.openai.com" ++ jsStripLead "/openai" req.originalUrl))
  else if jsStartsWith lp "/openrouter/" then
    .proxy (some ("https://openrouter.ai" ++ jsStripLead "/openrouter" req.originalUrl))
  else if jsStartsWith lp "/perplexity/" then
    .proxy (some ("https://api.perplexity.ai" ++ jsStripLead "/perplexity" req.originalUrl))
  else if jsStartsWith lp "/anthropic/" then
    .proxy (some ("https://api.anthropic.com" ++ jsStripLead "/anthropic" req.originalUrl))
  else if jsStartsWith lp "/gemini/" then
    .proxy (some ("https://generativelanguage.googleapis.com" ++ jsStripLead "/gemini" req.originalUrl))
  else if lp = "/proxy" ∨ lp = "/proxy/" then
    .proxy (jsOrStr (hdr req "x-target-url") (qget req "url"))
  else if jsStartsWith lp "/proxy/" then
    -- the handler's own regex match on `req.path` is case-sensitive
    if jsStartsWith req.path "/proxy/" then
      match decodeURIComponent (jsSlice 7 req.path) with
      | some t => .proxy (some t)
      | none => .uriError
    else .proxy none
  else
    match hdr req "x-target-url" with
    | some h =>
      if h = "" then .notFound
      else .proxy (some (jsStripTrailSlash h ++ req.originalUrl))
    | none => .notFound

/-- The whole application: password middleware, then the route table. -/
def handle (cfg : Config) (req : Request) : Action :=
  match requirePassword cfg req with
  | some (st, e) => .respond st (some e)
  | none =>
    match route req with
    | .health => .respond 200 none
    | .info => .respond 200 none
    | .proxy t => proxyAction t req
    | .uriError => .respond 500 none
    | .notFound => .respond 404 (some "Unknown route")

/-! #### Outbound error/timeout handlers (lines 129-141) -/

/-- An event on the outbound request socket. -/
inductive FwdEvent where
  | upstreamError (msg : String)
  | upstreamTimeout
deriving DecidableEq, Repr

/-- What a handler does in response. -/
inductive FwdAct where
  | logError (msg : String)
  | sendStatus (status : Nat) (errorField : String)
  | destroyOutbound
deriving DecidableEq, Repr

/-- The `proxyReq.on('error')` / `proxyReq.on('timeout')` handlers, as a
function of whether response headers have already been sent to the caller. -/
def onFwdEvent (headersSent : Bool) : FwdEvent → List FwdAct
  | .upstreamError msg =>
    .logError msg ::
    (if headersSent then [] else [.sendStatus 502 ("Proxy error: " ++ msg)])
  | .upstreamTimeout =>
    .destroyOutbound ::
    (if headersSent then [] else [.sendStatus 504 "Proxy timeout"])

/-! #### Tunnel Handler (CONNECT)

Modelled from the spec: the CONNECT Tunnel Handler (spec sections 4.3 and 6)
is part of this repository's earlier revisions and is not present in
`src/server.js`, whose Express app serves only ordinary HTTP methods.  The
state machine below follows spec section 4.3 verbatim: parse the authority
(port defaulting to 443 when absent or unparsable), open a raw TCP
connection, acknowledge with the success status line or answer a Bad Gateway
status line, forward the head bytes, then splice both directions until either
side closes. -/

/-- Modelled from the spec: authority `host[:port]`, port defaulting to 443
when absent or unparsable. -/
def parseAuthority (s : String) : String × Nat :=
  match splitFirstAt ':' s.data with
  | (h, none) => (⟨h⟩, 443)
  | (h, some p) => (⟨h⟩, (digitsToNat p).getD 443)

/-- Observable events of one tunnel session, in order. -/
inductive TunnelEv where
  | connectTo (host : String) (port : Nat)
  | lineToClient (line : String)
  | bytesToTarget (bs : List Nat)
  | bytesToClient (bs : List Nat)
  | closeClient
deriving DecidableEq, Repr

/-- Whether an event relays tunnelled payload bytes in either direction. -/
def TunnelEv.isRelay : TunnelEv → Bool
  | .bytesToTarget _ => true
  | .bytesToClient _ => true
  | _ => false

/-- Modelled from the spec: the established-state splice, interleaving the
client-to-target and target-to-client chunk streams under an arbitrary
schedule while preserving the order within each direction. -/
def splice : List (List Nat) → List (List Nat) → List Bool → List TunnelEv
  | cs, ts, [] => cs.map .bytesToTarget ++ ts.map .bytesToClient
  | cs, ts, pick :: sched =>
    if pick then
      match cs with
      | c :: cs2 => .bytesToTarget c :: splice cs2 ts sched
      | [] => splice [] ts sched
    else
      match ts with
      | t :: ts2 => .bytesToClient t :: splice cs ts2 sched
      | [] => splice cs [] sched

/-- Modelled from the spec: one whole tunnel session for a CONNECT request —
connect to the parsed authority, then either acknowledge and splice
(success) or answer `502` and close without relaying (failure). -/
def tunnelRun (authority : String) (head : List Nat) (connectOk : Bool)
    (fromClient fromTarget : List (List Nat)) (sched : List Bool) : List TunnelEv :=
  let a := parseAuthority authority
  .connectTo a.1 a.2 ::
  (if connectOk then
    .lineToClient "HTTP/1.1 200 Connection Established" ::
    .bytesToTarget head ::
    splice fromClient fromTarget sched
  else
    [.lineToClient "HTTP/1.1 502 Bad Gateway", .closeClient])

/-! ## General lemmas about the string and object primitives -/

theorem isPrefixOf_append_true (p s r : List Char) (h : p.isPrefixOf s = true) :
    p.isPrefixOf (s ++ r) = true := by
  rw [List.isPrefixOf_iff_prefix] at h ⊢
  exact h.trans (List.prefix_append s r)

theorem isPrefixOf_append_false (p s r : List Char)
    (h : (p.take s.length).isPrefixOf s = false) : p.isPrefixOf (s ++ r) = false := by
  rw [Bool.eq_false_iff] at h ⊢
  intro hT
  apply h
  rw [List.isPrefixOf_iff_prefix] at hT ⊢
  obtain ⟨t, ht⟩ := hT
  refine ⟨t.take (s.length - p.length), ?_⟩
  have h2 := congrArg (List.take s.length) ht
  rw [List.take_append_eq_append_take, List.take_left] at h2
  exact h2

theorem strData_append (s t : String) : (s ++ t).data = s.data ++ t.data := rfl

theorem strAppend_assoc (a b c : String) : a ++ b ++ c = a ++ (b ++ c) :=
  String.ext (List.append_assoc a.data b.data c.data)

theorem jsStartsWith_append_true (s r p : String) (h : jsStartsWith s p = true) :
    jsStartsWith (s ++ r) p = true := by
  unfold jsStartsWith at h ⊢
  rw [strData_append]
  exact isPrefixOf_append_true _ _ _ h

theorem jsStartsWith_append_false (s r p : String)
    (h : (p.data.take s.data.length).isPrefixOf s.data = false) :
    jsStartsWith (s ++ r) p = false := by
  unfold jsStartsWith
  rw [strData_append]
  exact isPrefixOf_append_false _ _ _ h

theorem append_ne_lit (s r t : String) (h : t.data.take s.data.length ≠ s.data) :
    s ++ r ≠ t := by
  intro he
  apply h
  have h2 : t.data = s.data ++ r.data := by rw [← he]; rfl
  rw [h2, List.take_left]

theorem append_ne_left (s r : String) (hr : r ≠ "") : s ++ r ≠ s := by
  intro he
  apply hr
  have h2 : s.data ++ r.data = s.data ++ [] := by
    have h3 : (s ++ r).data = s.data := congrArg String.data he
    rw [strData_append] at h3
    rw [h3, List.append_nil]
  exact String.ext (List.append_cancel_left h2)

theorem jsToLower_append (s t : String) : jsToLower (s ++ t) = jsToLower s ++ jsToLower t := by
  apply String.ext
  show lowerL (s.data ++ t.data) = lowerL s.data ++ lowerL t.data
  exact List.map_append jsToLowerChar s.data t.data

theorem jsToLower_ne_empty (s : String) (h : s ≠ "") : jsToLower s ≠ "" := by
  intro he
  apply h
  apply String.ext
  have h2 : lowerL s.data = [] := congrArg String.data he
  cases hs : s.data with
  | nil => rfl
  | cons a l => rw [hs] at h2; exact absurd h2 (by simp [lowerL])

theorem jsStripLead_append (p s r : String) (hp : jsStartsWith s p = true) :
    jsStripLead p (s ++ r) = jsStripLead p s ++ r := by
  have hall := jsStartsWith_append_true s r p hp
  have hlen : p.data.length ≤ s.data.length :=
    ((List.isPrefixOf_iff_prefix).mp hp).length_le
  unfold jsStripLead
  rw [hp, hall]
  simp only [if_true]
  apply String.ext
  show (s.data ++ r.data).drop p.data.length = s.data.drop p.data.length ++ r.data
  rw [List.drop_append_eq_append_drop, Nat.sub_eq_zero_of_le hlen, List.drop_zero]

theorem jsSlice_append (s r : String) : jsSlice s.data.length (s ++ r) = r := by
  apply String.ext
  show (s.data ++ r.data).drop s.data.length = r.data
  exact List.drop_left s.data r.data

/-- Every element of `objSet o k v` is an element of `o` or is `(k, v)`. -/
theorem mem_objSet {o : List (String × String)} {k v : String} {x : String × String}
    (h : x ∈ objSet o k v) : x ∈ o ∨ x = (k, v) := by
  unfold objSet at h
  by_cases ha : o.any (fun p => p.1 == k)
  · rw [if_pos ha] at h
    obtain ⟨y, hy, hfy⟩ := List.mem_map.mp h
    by_cases hyk : y.1 == k
    · rw [if_pos hyk] at hfy
      exact Or.inr hfy.symm
    · rw [if_neg hyk] at hfy
      exact Or.inl (hfy ▸ hy)
  · rw [if_neg ha] at h
    rcases List.mem_append.mp h with h1 | h1
    · exact Or.inl h1
    · exact Or.inr (List.mem_singleton.mp h1)

/-- After the overwrite pass of `objSet`, searching the key finds the new
value. -/
theorem find?_map_set (o : List (String × String)) (k v : String)
    (ha : o.any (fun p => p.1 == k) = true) :
    (o.map (fun p => if p.1 == k then (k, v) else p)).find? (fun p => p.1 == k)
      = some (k, v) := by
  induction o with
  | nil => simp at ha
  | cons p t ih =>
    rw [List.map_cons]
    by_cases hpk : p.1 == k
    · rw [if_pos hpk]
      simp [List.find?]
    · rw [if_neg hpk]
      have ht : t.any (fun p => p.1 == k) = true := by
        rcases List.any_eq_true.mp ha with ⟨y, hy, hyk⟩
        rcases List.mem_cons.mp hy with h1 | h1
        · exact absurd (h1 ▸ hyk) (by simpa using hpk)
        · exact List.any_eq_true.mpr ⟨y, h1, hyk⟩
      rw [List.find?_cons_of_neg _ (by simpa using hpk)]
      exact ih ht

/-- Appending a fresh key-value pair: searching the key finds it. -/
theorem find?_append_single (o : List (String × String)) (k v : String)
    (ha : o.any (fun p => p.1 == k) = false) :
    (o ++ [(k, v)]).find? (fun p => p.1 == k) = some (k, v) := by
  induction o with
  | nil => simp [List.find?]
  | cons p t ih =>
    have hpk : (p.1 == k) = false := by
      by_contra hc
      rw [Bool.not_eq_false] at hc
      rw [List.any_cons, hc, Bool.true_or] at ha
      exact Bool.true_eq_false.mp ha
    have hta : t.any (fun p => p.1 == k) = false := by
      rw [List.any_cons, hpk, Bool.false_or] at ha
      exact ha
    rw [List.cons_append, List.find?_cons_of_neg _ (by simp [hpk])]
    exact ih hta

/-- Assigning key `k` makes `objGet` at `k` return the assigned value. -/
theorem objGet_objSet (o : List (String × String)) (k v : String) :
    objGet (objSet o k v) k = some v := by
  unfold objGet objSet
  by_cases ha : o.any (fun p => p.1 == k)
  · rw [if_pos ha, find?_map_set o k v ha]
    rfl
  · rw [if_neg ha, find?_append_single o k v (Bool.eq_false_iff.mpr ha)]
    rfl

/-- Fold invariant: every header surviving the filter of `buildOutHeaders`
satisfies `keepHeader`. -/
theorem mem_filterFold (hs : List (String × String)) (acc : List (String × String))
    (hacc : ∀ x ∈ acc, keepHeader x.1 x.2 = true) :
    ∀ x ∈ hs.foldl (fun acc p => if keepHeader p.1 p.2 then objSet acc p.1 p.2 else acc) acc,
      keepHeader x.1 x.2 = true := by
  induction hs generalizing acc with
  | nil => exact hacc
  | cons p t ih =>
    intro x hx
    rw [List.foldl_cons] at hx
    refine ih _ ?_ x hx
    intro y hy
    by_cases hk : keepHeader p.1 p.2
    · rw [if_pos hk] at hy
      rcases mem_objSet hy with h1 | h1
      · exact hacc y h1
      · rw [h1]; exact hk
    · rw [if_neg hk] at hy
      exact hacc y hy

/-- Every outbound header either survived the filter or is the final
`host` assignment. -/
theorem mem_buildOutHeaders {hs : List (String × String)} {h : String}
    {x : String × String} (hx : x ∈ buildOutHeaders hs h) :
    keepHeader x.1 x.2 = true ∨ x = ("host", h) := by
  unfold buildOutHeaders at hx
  rcases mem_objSet hx with h1 | h1
  · exact Or.inl (mem_filterFold hs [] (by intro y hy; cases hy) x h1)
  · exact Or.inr h1

/-- The outbound `host` header is exactly the target's host. -/
theorem buildOutHeaders_host (hs : List (String × String)) (h : String) :
    objGet (buildOutHeaders hs h) "host" = some h :=
  objGet_objSet _ "host" h

/-- Headers surviving the filter are not in the skip-set. -/
theorem keepHeader_contains {k v : String} (hk : keepHeader k v = true) :
    skipHeaders.contains (jsToLower k) = false := by
  unfold keepHeader at hk
  rw [Bool.and_eq_true] at hk
  rcases hk with ⟨h1, _⟩
  simpa using h1

/-- Headers surviving the filter are not `Basic` authorization headers. -/
theorem keepHeader_basic {k v : String} (hk : keepHeader k v = true)
    (ha : jsToLower k = "authorization") : jsStartsWith v "Basic " = false := by
  unfold keepHeader at hk
  rw [Bool.and_eq_true] at hk
  rcases hk with ⟨_, h2⟩
  rw [Bool.not_eq_true'] at h2
  rw [ha] at h2
  simpa using h2

/-! ## The claims -/

/-- C1: for every inbound request, the outbound header set built by the
forwarder never contains the original `Host`, `Connection`, or
`Transfer-Encoding` headers, nor the proxy's control headers `X-Target-URL`,
`X-API-Key`, or `X-Proxy-Password`, and it always contains a `Host` header
equal to the resolved target's host. -/
theorem c1_header_sanitization (req : Request) (t : String) (u : JSURL)
    (ht : t ≠ "") (hu : jsURL (coerceScheme t) = some u) :
    ∃ ob, proxyAction (some t) req = .forward ob ∧
      objGet ob.headers "host" = some (JSURL.host u) ∧
      ∀ kv ∈ ob.headers,
        jsToLower kv.1 ≠ "connection" ∧
        jsToLower kv.1 ≠ "transfer-encoding" ∧
        jsToLower kv.1 ≠ "x-target-url" ∧
        jsToLower kv.1 ≠ "x-api-key" ∧
        jsToLower kv.1 ≠ "x-proxy-password" ∧
        (jsToLower kv.1 = "host" → kv = ("host", JSURL.host u)) := by
  refine ⟨mkOutbound u req, by simp [proxyAction, ht, hu],
    buildOutHeaders_host req.headers (JSURL.host u), ?_⟩
  intro kv hkv
  rcases mem_buildOutHeaders hkv with hk | hk
  · have hc := keepHeader_contains hk
    refine ⟨?_, ?_, ?_, ?_, ?_, ?_⟩ <;> intro he <;> rw [he] at hc <;>
      exact absurd hc (by decide)
  · rw [hk]
    exact ⟨(by decide : jsToLower "host" ≠ "connection"),
      (by decide : jsToLower "host" ≠ "transfer-encoding"),
      (by decide : jsToLower "host" ≠ "x-target-url"),
      (by decide : jsToLower "host" ≠ "x-api-key"),
      (by decide : jsToLower "host" ≠ "x-proxy-password"), fun _ => rfl⟩

/-- Witness for C1 at a concrete request and target. -/
theorem c1_header_sanitization_witness :
    ∃ ob,
      proxyAction (some "http://h.test")
          { method := "GET", path := "/proxy", search := "", query := []
          , headers := [("connection", "keep-alive"), ("x-api-key", "s"), ("accept", "*/*")] }
        = .forward ob ∧
      objGet ob.headers "host" =
        some (JSURL.host { scheme := "http", hostname := "h.test", port := none
                         , pathname := "/", queryPairs := [] }) ∧
      ∀ kv ∈ ob.headers,
        jsToLower kv.1 ≠ "connection" ∧
        jsToLower kv.1 ≠ "transfer-encoding" ∧
        jsToLower kv.1 ≠ "x-target-url" ∧
        jsToLower kv.1 ≠ "x-api-key" ∧
        jsToLower kv.1 ≠ "x-proxy-password" ∧
        (jsToLower kv.1 = "host" →
          kv = ("host", JSURL.host { scheme := "http", hostname := "h.test", port := none
                                   , pathname := "/", queryPairs := [] })) :=
  c1_header_sanitization _ "http://h.test" _ (by decide) (by decide)

/-- C2 counterexample: a caller that authenticates with the shared secret as
a Bearer token has that very credential forwarded upstream in the
`Authorization` header, so the claim "the forwarded outbound request never
includes that credential in any form" is false. -/
theorem c2_counterexample :
    handle ⟨"s3cr3t"⟩
        { method := "POST", path := "/proxy", search := "?url=https://api.test/x"
        , query := [("url", "https://api.test/x")]
        , headers := [("authorization", "Bearer s3cr3t")] }
      = .forward
        { secure := true, hostname := "api.test", port := 443, path := "/x"
        , method := "POST"
        , headers := [("authorization", "Bearer s3cr3t"), ("host", "api.test")]
        , timeoutMs := 120000 } := by
  decide

/-- C2 amended: the forwarded request never carries the credential when it is
supplied via the `X-Proxy-Password` header, a `password` query parameter, or
HTTP Basic credentials (the `X-Proxy-Password` header is skipped, `Basic`
authorization headers are dropped, and `password` is deleted from the target
query); a credential supplied as a Bearer token, however, is forwarded
unchanged inside the `Authorization` header (see the counterexample). -/
theorem c2_credential_confinement (req : Request) (t : String) (u : JSURL)
    (ht : t ≠ "") (hu : jsURL (coerceScheme t) = some u) :
    ∃ ob, proxyAction (some t) req = .forward ob ∧
      (∀ kv ∈ ob.headers, jsToLower kv.1 ≠ "x-proxy-password") ∧
      (∀ kv ∈ ob.headers, jsToLower kv.1 = "authorization" →
          jsStartsWith kv.2 "Basic " = false) ∧
      (∀ qp ∈ outQueryPairs u, qp.1 ≠ "password") ∧
      ob.path = u.pathname ++ searchOf (outQueryPairs u) := by
  refine ⟨mkOutbound u req, by simp [proxyAction, ht, hu], ?_, ?_, ?_, rfl⟩
  · intro kv hkv he
    rcases mem_buildOutHeaders hkv with hk | hk
    · have hc := keepHeader_contains hk
      rw [he] at hc
      exact absurd hc (by decide)
    · rw [hk] at he
      exact absurd he (by decide : ¬(jsToLower "host" = "x-proxy-password"))
  · intro kv hkv he
    rcases mem_buildOutHeaders hkv with hk | hk
    · exact keepHeader_basic hk he
    · rw [hk] at he
      exact absurd he (by decide : ¬(jsToLower "host" = "authorization"))
  · intro qp hqp
    have hf := List.of_mem_filter hqp
    simpa using hf

/-- Witness for C2 amended at a concrete request and target. -/
theorem c2_credential_confinement_witness :
    ∃ ob,
      proxyAction (some "https://api.test/x?password=s3cr3t&keep=1")
          { method := "GET", path := "/proxy", search := "", query := []
          , headers := [("x-proxy-password", "s3cr3t"), ("authorization", "Basic dXNlcjpzM2NyM3Q=")] }
        = .forward ob ∧
      (∀ kv ∈ ob.headers, jsToLower kv.1 ≠ "x-proxy-password") ∧
      (∀ kv ∈ ob.headers, jsToLower kv.1 = "authorization" →
          jsStartsWith kv.2 "Basic " = false) ∧
      (∀ qp ∈ outQueryPairs
          { scheme := "https", hostname := "api.test", port := none, pathname := "/x"
          , queryPairs := [("password", "s3cr3t"), ("keep", "1")] }, qp.1 ≠ "password") ∧
      ob.path =
        JSURL.pathname
            { scheme := "https", hostname := "api.test", port := none, pathname := "/x"
            , queryPairs := [("password", "s3cr3t"), ("keep", "1")] } ++
          searchOf (outQueryPairs
            { scheme := "https", hostname := "api.test", port := none, pathname := "/x"
            , queryPairs := [("password", "s3cr3t"), ("keep", "1")] }) :=
  c2_credential_confinement _ "https://api.test/x?password=s3cr3t&keep=1" _
    (by decide) (by decide)

/-- C7: an outbound error before any response was sent yields `502` carrying
the error description; timeout expiry always aborts the outbound request and
yields `504` when nothing was sent yet; once streaming has begun neither
handler sends any status. -/
theorem c7_upstream_error_handling (sent : Bool) (msg : String) :
    (sent = false → onFwdEvent sent (.upstreamError msg)
        = [.logError msg, .sendStatus 502 ("Proxy error: " ++ msg)]) ∧
    ((onFwdEvent sent .upstreamTimeout).head? = some .destroyOutbound) ∧
    (sent = false → onFwdEvent sent .upstreamTimeout
        = [.destroyOutbound, .sendStatus 504 "Proxy timeout"]) ∧
    (sent = true → ∀ ev, ∀ a ∈ onFwdEvent sent ev, ∀ st e, a ≠ .sendStatus st e) := by
  refine ⟨?_, ?_, ?_, ?_⟩
  · intro hs; rw [hs]; rfl
  · cases sent <;> rfl
  · intro hs; rw [hs]; rfl
  · intro hs ev a ha st e
    rw [hs] at ha
    cases ev with
    | upstreamError m =>
      simp [onFwdEvent] at ha
      rw [ha]; intro hc; cases hc
    | upstreamTimeout =>
      simp [onFwdEvent] at ha
      rw [ha]; intro hc; cases hc

/-- C3: for every CONNECT request, the tunnel opens a raw TCP connection to
the parsed `host:port` authority and answers the exact `200 Connection
Established` status line on success, or a `502` status line on failure,
before relaying any bytes in either direction; on failure nothing is ever
relayed.  (Settled against the spec-modelled Tunnel Handler; see
`tunnelRun`.) -/
theorem c3_connect_tunnel (authority : String) (head : List Nat) (ok : Bool)
    (cs ts : List (List Nat)) (sched : List Bool) :
    (tunnelRun authority head ok cs ts sched).head? =
      some (.connectTo (parseAuthority authority).1 (parseAuthority authority).2) ∧
    (tunnelRun authority head ok cs ts sched)[1]? =
      some (.lineToClient (if ok then "HTTP/1.1 200 Connection Established"
                           else "HTTP/1.1 502 Bad Gateway")) ∧
    (∀ i ev, (tunnelRun authority head ok cs ts sched)[i]? = some ev →
        ev.isRelay = true → 2 ≤ i) ∧
    (ok = false → ∀ ev ∈ tunnelRun authority head ok cs ts sched, ev.isRelay = false) := by
  cases ok with
  | true =>
    refine ⟨rfl, rfl, ?_, ?_⟩
    · intro i ev hget hrel
      match i with
      | 0 =>
        simp [tunnelRun] at hget
        rw [← hget] at hrel
        simp [TunnelEv.isRelay] at hrel
      | 1 =>
        simp [tunnelRun] at hget
        rw [← hget] at hrel
        simp [TunnelEv.isRelay] at hrel
      | n + 2 => omega
    · intro h; cases h
  | false =>
    refine ⟨rfl, rfl, ?_, ?_⟩
    · intro i ev hget hrel
      match i with
      | 0 =>
        simp [tunnelRun] at hget
        rw [← hget] at hrel
        simp [TunnelEv.isRelay] at hrel
      | 1 =>
        simp [tunnelRun] at hget
        rw [← hget] at hrel
        simp [TunnelEv.isRelay] at hrel
      | n + 2 => omega
    · intro _ ev hev
      simp [tunnelRun] at hev
      rcases hev with h | h | h <;> rw [h] <;> rfl

/-- Witness for C3 at a concrete failed tunnel session, discharging the
failure hypothesis. -/
theorem c3_connect_tunnel_witness :
    (tunnelRun "h.test:8443" [1, 2] false [[3], [4]] [[5]] [true, false]).head? =
      some (.connectTo (parseAuthority "h.test:8443").1 (parseAuthority "h.test:8443").2) ∧
    (tunnelRun "h.test:8443" [1, 2] false [[3], [4]] [[5]] [true, false])[1]? =
      some (.lineToClient (if false then "HTTP/1.1 200 Connection Established"
                           else "HTTP/1.1 502 Bad Gateway")) ∧
    (∀ i ev, (tunnelRun "h.test:8443" [1, 2] false [[3], [4]] [[5]] [true, false])[i]? = some ev →
        ev.isRelay = true → 2 ≤ i) ∧
    (∀ ev ∈ tunnelRun "h.test:8443" [1, 2] false [[3], [4]] [[5]] [true, false],
        ev.isRelay = false) := by
  have h := c3_connect_tunnel "h.test:8443" [1, 2] false [[3], [4]] [[5]] [true, false]
  exact ⟨h.1, h.2.1, h.2.2.1, h.2.2.2 rfl⟩

/-- C4 counterexample: on a `/proxy/<url>` request the `X-Target-URL` header
does not override the path-embedded URL — the route resolves to the
path-embedded `http://b.test` although the header names `http://a.test` — so
the header does not have the highest priority over every other resolution
rule. -/
theorem c4_counterexample :
    route { method := "GET", path := "/proxy/http://b.test", search := "", query := []
          , headers := [("x-target-url", "http://a.test")] }
        = .proxy (some "http://b.test") ∧
    ("http://b.test" : String) ≠ "http://a.test" := by
  constructor
  · decide
  · decide

/-- C4 amended: on `/proxy` the `X-Target-URL` header wins over the `url`
query parameter, and a URL supplied via header (on `/proxy`), via the `url`
query parameter (on `/proxy` without the header), or via the `/proxy/<url>`
path embedding resolves to exactly that URL, scheme-coerced with `https://`
only when the regex `^https?:\/\//i` does not match; but the `/proxy/<url>`
and provider-prefixed routes are matched before the header is ever
consulted, so the header does not override them (see the counterexample). -/
theorem c4_resolver_amended :
    (∀ req hv, req.path = "/proxy" → hdr req "x-target-url" = some hv → hv ≠ "" →
        route req = .proxy (some hv)) ∧
    (∀ req qv, req.path = "/proxy" → hdr req "x-target-url" = none →
        qget req "url" = some qv → route req = .proxy (some qv)) ∧
    (∀ req s d, s ≠ "" → req.path = "/proxy/" ++ s →
        decodeURIComponent s = some d → route req = .proxy (some d)) ∧
    (∀ t, (hasHttpScheme t = true → coerceScheme t = t) ∧
        (hasHttpScheme t = false → coerceScheme t = "https://" ++ t)) := by
  refine ⟨?_, ?_, ?_, ?_⟩
  · intro req hv hp hh hne
    simp +decide [route, hp, hh, jsOrStr, hne]
  · intro req qv hp hh hq
    simp +decide [route, hp, hh, hq, jsOrStr]
  · intro req s d hs hp hdec
    have hlow : jsToLower ("/proxy/" ++ s) = "/proxy/" ++ jsToLower s := by
      rw [jsToLower_append]; rfl
    have hne1 : "/proxy/" ++ jsToLower s ≠ "/health" := append_ne_lit _ _ _ (by decide)
    have hne2 : "/proxy/" ++ jsToLower s ≠ "/health/" := append_ne_lit _ _ _ (by decide)
    have hne3 : "/proxy/" ++ jsToLower s ≠ "/" := append_ne_lit _ _ _ (by decide)
    have hne3b : "/proxy/" ++ jsToLower s ≠ "//" := append_ne_lit _ _ _ (by decide)
    have hp1 : jsStartsWith ("/proxy/" ++ jsToLower s) "/openai/" = false :=
      jsStartsWith_append_false _ _ _ (by decide)
    have hp2 : jsStartsWith ("/proxy/" ++ jsToLower s) "/openrouter/" = false :=
      jsStartsWith_append_false _ _ _ (by decide)
    have hp3 : jsStartsWith ("/proxy/" ++ jsToLower s) "/perplexity/" = false :=
      jsStartsWith_append_false _ _ _ (by decide)
    have hp4 : jsStartsWith ("/proxy/" ++ jsToLower s) "/anthropic/" = false :=
      jsStartsWith_append_false _ _ _ (by decide)
    have hp5 : jsStartsWith ("/proxy/" ++ jsToLower s) "/gemini/" = false :=
      jsStartsWith_append_false _ _ _ (by decide)
    have hne4 : "/proxy/" ++ jsToLower s ≠ "/proxy" := append_ne_lit _ _ _ (by decide)
    have hne5 : "/proxy/" ++ jsToLower s ≠ "/proxy/" :=
      append_ne_left _ _ (jsToLower_ne_empty s hs)
    have hsw : jsStartsWith ("/proxy/" ++ jsToLower s) "/proxy/" = true :=
      jsStartsWith_append_true _ _ _ (by decide)
    have hswcs : jsStartsWith ("/proxy/" ++ s) "/proxy/" = true :=
      jsStartsWith_append_true _ _ _ (by decide)
    have hslice : jsSlice 7 ("/proxy/" ++ s) = s := by
      have h7 : ("/proxy/" : String).data.length = 7 := by decide
      rw [← h7]
      exact jsSlice_append "/proxy/" s
    simp only [route, hp, hlow, hne1, hne2, hne3, hne3b, hp1, hp2, hp3, hp4, hp5, hne4, hne5,
      hsw, hswcs, hslice, hdec, or_self, and_false, and_true, if_false, if_true,
      Bool.false_eq_true]
  · intro t
    constructor <;> intro h <;> simp [coerceScheme, h]

/-- Witness for C4 amended at concrete requests, one per clause. -/
theorem c4_resolver_amended_witness :
    route { method := "GET", path := "/proxy", search := "", query := [("url", "http://b.test")]
          , headers := [("x-target-url", "http://a.test")] } = .proxy (some "http://a.test") ∧
    route { method := "GET", path := "/proxy", search := "", query := [("url", "http://b.test")]
          , headers := [] } = .proxy (some "http://b.test") ∧
    route { method := "GET", path := "/proxy/https://c.test/x", search := "", query := []
          , headers := [] } = .proxy (some "https://c.test/x") ∧
    coerceScheme "api.test/x" = "https://" ++ "api.test/x" :=
  ⟨c4_resolver_amended.1 _ "http://a.test" rfl (by decide) (by decide),
   c4_resolver_amended.2.1 _ "http://b.test" rfl (by decide) (by decide),
   c4_resolver_amended.2.2.1 _ "https://c.test/x" "https://c.test/x" (by decide)
     (by decide) (by decide),
   (c4_resolver_amended.2.2.2 "api.test/x").2 (by decide)⟩

/-- C5 counterexample: for the spec's own example
`GET /proxy?url=https://api.test/x&apikey=secret&foo=bar` the outbound path
is exactly `/x` — the original query parameters are not merged at all, so
`foo=bar` is absent upstream, contradicting the claim that it is present. -/
theorem c5_counterexample :
    handle ⟨""⟩
        { method := "GET", path := "/proxy"
        , search := "?url=https://api.test/x&apikey=secret&foo=bar"
        , query := [("url", "https://api.test/x"), ("apikey", "secret"), ("foo", "bar")]
        , headers := [] }
      = .forward
        { secure := true, hostname := "api.test", port := 443, path := "/x"
        , method := "GET", headers := [("host", "api.test")], timeoutMs := 120000 } := by
  decide

/-- C5 amended: when the target is resolved via the `url` query parameter on
`/proxy`, the outbound path is built solely from the target URL itself — its
own query minus any `password` parameter — and the request's remaining
original query parameters (such as `apikey` or `foo`) are dropped entirely
rather than merged. -/
theorem c5_query_handling_amended (req : Request) (U : String) (u : JSURL)
    (hp : req.path = "/proxy") (hh : hdr req "x-target-url" = none)
    (hq : qget req "url" = some U) (hU : U ≠ "")
    (hu : jsURL (coerceScheme U) = some u) :
    handle ⟨""⟩ req = .forward (mkOutbound u req) ∧
    (mkOutbound u req).path = u.pathname ++ searchOf (outQueryPairs u) ∧
    (∀ qp ∈ outQueryPairs u, qp.1 ≠ "password") := by
  refine ⟨?_, rfl, ?_⟩
  · have hrp : requirePassword ⟨""⟩ req = none := by simp [requirePassword]
    have hroute : route req = .proxy (some U) := by
      simp +decide [route, hp, hh, hq, jsOrStr]
    simp [handle, hrp, hroute, proxyAction, hU, hu]
  · intro qp hqp
    have hf := List.of_mem_filter hqp
    simpa using hf

/-- Witness for C5 amended at the spec's example target. -/
theorem c5_query_handling_amended_witness :
    handle ⟨""⟩
        { method := "GET", path := "/proxy"
        , search := "?url=https://api.test/x&apikey=secret&foo=bar"
        , query := [("url", "https://api.test/x"), ("apikey", "secret"), ("foo", "bar")]
        , headers := [] }
      = .forward (mkOutbound
          { scheme := "https", hostname := "api.test", port := none, pathname := "/x"
          , queryPairs := [] }
          { method := "GET", path := "/proxy"
          , search := "?url=https://api.test/x&apikey=secret&foo=bar"
          , query := [("url", "https://api.test/x"), ("apikey", "secret"), ("foo", "bar")]
          , headers := [] }) ∧
    (mkOutbound
        { scheme := "https", hostname := "api.test", port := none, pathname := "/x"
        , queryPairs := [] }
        { method := "GET", path := "/proxy"
        , search := "?url=https://api.test/x&apikey=secret&foo=bar"
        , query := [("url", "https://api.test/x"), ("apikey", "secret"), ("foo", "bar")]
        , headers := [] }).path =
      JSURL.pathname
          { scheme := "https", hostname := "api.test", port := none, pathname := "/x"
          , queryPairs := [] } ++
        searchOf (outQueryPairs
          { scheme := "https", hostname := "api.test", port := none, pathname := "/x"
          , queryPairs := [] }) ∧
    (∀ qp ∈ outQueryPairs
        { scheme := "https", hostname := "api.test", port := none, pathname := "/x"
        , queryPairs := [] }, qp.1 ≠ "password") :=
  c5_query_handling_amended _ "https://api.test/x" _ rfl (by decide) (by decide)
    (by decide) (by decide)

/-- C6 counterexample: `GET /proxy?url=ht!tp://bad` does not yield `400` —
after `https://` coercion the WHATWG parser accepts the string (host
`ht!tp`, path `//bad`), so the request is forwarded. -/
theorem c6_counterexample :
    handle ⟨""⟩
        { method := "GET", path := "/proxy", search := "?url=ht!tp://bad"
        , query := [("url", "ht!tp://bad")], headers := [] }
      = .forward
        { secure := true, hostname := "ht!tp", port := 443, path := "//bad"
        , method := "GET", headers := [("host", "ht!tp")], timeoutMs := 120000 } := by
  decide

/-- C6 amended: with no candidate the response is `400` with the
`Missing target URL` error; a non-empty candidate whose coerced form the URL
parser rejects yields `400` with an error carrying the offending (coerced)
string; but `ht!tp://bad` is not such a candidate — after coercion it parses
(host `ht!tp`) and is forwarded (see the counterexample). -/
theorem c6_target_errors_amended :
    (∀ req, req.path = "/proxy" → hdr req "x-target-url" = none → qget req "url" = none →
        handle ⟨""⟩ req = .respond 400 (some "Missing target URL")) ∧
    (∀ req, proxyAction none req = .respond 400 (some "Missing target URL")) ∧
    (∀ req t, t ≠ "" → jsURL (coerceScheme t) = none →
        proxyAction (some t) req = .respond 400 (some ("Invalid URL: " ++ coerceScheme t))) := by
  refine ⟨?_, fun req => rfl, ?_⟩
  · intro req hp hh hq
    have hrp : requirePassword ⟨""⟩ req = none := by simp [requirePassword]
    have hroute : route req = .proxy none := by
      simp +decide [route, hp, hh, hq, jsOrStr]
    simp [handle, hrp, hroute, proxyAction]
  · intro req t ht hu
    simp [proxyAction, ht, hu]

/-- Witness for C6 amended: a bare `GET /proxy` and an unparsable target. -/
theorem c6_target_errors_amended_witness :
    handle ⟨""⟩ { method := "GET", path := "/proxy", search := "", query := [], headers := [] }
      = .respond 400 (some "Missing target URL") ∧
    proxyAction (some "https://bad host")
        { method := "GET", path := "/proxy", search := "", query := [], headers := [] }
      = .respond 400 (some ("Invalid URL: " ++ coerceScheme "https://bad host")) :=
  ⟨c6_target_errors_amended.1 _ rfl (by decide) (by decide),
   c6_target_errors_amended.2.2 _ "https://bad host" (by decide) (by decide)⟩

/-- C8 counterexample: with the shared secret set, a request that supplies
the exact secret in the `X-API-Key` header is rejected with `401` — the gate
never consults `X-API-Key` (nor the `apikey` query parameter), contradicting
the claim that those mechanisms are accepted. -/
theorem c8_counterexample :
    requirePassword ⟨"s3cr3t"⟩
        { method := "GET", path := "/x", search := "", query := []
        , headers := [("x-api-key", "s3cr3t")] } = some (401, "Unauthorized") := by
  decide

/-- C8 amended: when the secret is unset every request passes; `/` and
`/health` always pass; otherwise the gate accepts exactly a credential equal
to the secret taken from the first present mechanism among the
`X-Proxy-Password` header, the `password` query parameter, a Bearer token,
or HTTP Basic credentials (password field `split(':')[1]`), and rejects with
a `401` JSON error — `X-API-Key` headers and `apikey` query parameters are
never consulted (see the counterexample). -/
theorem c8_auth_gate_amended (cfg : Config) (req : Request) :
    (cfg.proxyPassword = "" → requirePassword cfg req = none) ∧
    (req.path = "/" ∨ req.path = "/health" → requirePassword cfg req = none) ∧
    (cfg.proxyPassword ≠ "" → ¬(req.path = "/" ∨ req.path = "/health") →
      requirePassword cfg req =
        if effectiveProvided req = cfg.proxyPassword then none
        else some (401, "Unauthorized")) ∧
    (∀ s, hdr req "x-proxy-password" = some s → s ≠ "" → effectiveProvided req = s) ∧
    (∀ tok, (hdr req "x-proxy-password" = none ∨ hdr req "x-proxy-password" = some "") →
        (qget req "password" = none ∨ qget req "password" = some "") →
        hdr req "authorization" = some ("Bearer " ++ tok) → tok ≠ "" →
        effectiveProvided req = tok) ∧
    (∀ cred, (hdr req "x-proxy-password" = none ∨ hdr req "x-proxy-password" = some "") →
        (qget req "password" = none ∨ qget req "password" = some "") →
        hdr req "authorization" = some ("Basic " ++ cred) →
        effectiveProvided req = basicPassword (b64ToUtf8 cred)) := by
  refine ⟨?_, ?_, ?_, ?_, ?_, ?_⟩
  · intro h
    simp [requirePassword, h]
  · intro h
    by_cases hpw : cfg.proxyPassword = "" <;> simp [requirePassword, hpw, h]
  · intro h1 h2
    simp [requirePassword, h1, h2]
  · intro s hh hs
    simp [effectiveProvided, hh, hs]
  · intro tok hh hq ha htok
    have hB : jsStartsWith ("Bearer " ++ tok) "Bearer " = true :=
      jsStartsWith_append_true _ _ _ (by decide)
    have hS : jsSlice 7 ("Bearer " ++ tok) = tok := by
      have h7 : ("Bearer " : String).data.length = 7 := by decide
      rw [← h7]
      exact jsSlice_append "Bearer " tok
    rcases hh with hh | hh <;> rcases hq with hq | hq <;>
      simp [effectiveProvided, hh, hq, ha, htok, hB, hS]
  · intro cred hh hq ha
    have hB : jsStartsWith ("Basic " ++ cred) "Bearer " = false :=
      jsStartsWith_append_false _ _ _ (by decide)
    have hB2 : jsStartsWith ("Basic " ++ cred) "Basic " = true :=
      jsStartsWith_append_true _ _ _ (by decide)
    have hS : jsSlice 6 ("Basic " ++ cred) = cred := by
      have h6 : ("Basic " : String).data.length = 6 := by decide
      rw [← h6]
      exact jsSlice_append "Basic " cred
    rcases hh with hh | hh <;> rcases hq with hq | hq <;>
      simp [effectiveProvided, hh, hq, ha, hB, hB2, hS]

/-- Witness for C8 amended: the unset-secret clause, the exemption clause,
the rejection shape, and the Bearer mechanism, at concrete requests. -/
theorem c8_auth_gate_amended_witness :
    requirePassword ⟨""⟩
        { method := "GET", path := "/x", search := "", query := [], headers := [] } = none ∧
    requirePassword ⟨"pw"⟩
        { method := "GET", path := "/health", search := "", query := [], headers := [] }
      = none ∧
    requirePassword ⟨"pw"⟩
        { method := "GET", path := "/x", search := "", query := []
        , headers := [("authorization", "Bearer pw")] }
      = (if effectiveProvided
            { method := "GET", path := "/x", search := "", query := []
            , headers := [("authorization", "Bearer pw")] } = "pw"
         then none else some (401, "Unauthorized")) ∧
    effectiveProvided
        { method := "GET", path := "/x", search := "", query := []
        , headers := [("authorization", "Bearer pw")] } = "pw" :=
  ⟨(c8_auth_gate_amended ⟨""⟩ _).1 rfl,
   (c8_auth_gate_amended ⟨"pw"⟩ _).2.1 (Or.inr rfl),
   (c8_auth_gate_amended ⟨"pw"⟩ _).2.2.1 (by decide) (by decide),
   (c8_auth_gate_amended ⟨"pw"⟩ _).2.2.2.2.1 "pw" (Or.inl (by decide)) (Or.inl (by decide))
     (by decide) (by decide)⟩

/-- C9: for every request whose path lies under a registered provider prefix
(`/openai`, `/openrouter`, `/perplexity`, `/anthropic`, `/gemini`), the
resolver rewrites the target to the provider's fixed origin plus the
remainder of the path, with the query string appended verbatim. -/
theorem c9_provider_rewrite (m se rest : String) (q hs : List (String × String)) :
    route { method := m, path := "/openai/" ++ rest, search := se, query := q, headers := hs }
      = .proxy (some ("https://api.openai.com/" ++ (rest ++ se))) ∧
    route { method := m, path := "/openrouter/" ++ rest, search := se, query := q, headers := hs }
      = .proxy (some ("https://openrouter.ai/" ++ (rest ++ se))) ∧
    route { method := m, path := "/perplexity/" ++ rest, search := se, query := q, headers := hs }
      = .proxy (some ("https://api.perplexity.ai/" ++ (rest ++ se))) ∧
    route { method := m, path := "/anthropic/" ++ rest, search := se, query := q, headers := hs }
      = .proxy (some ("https://api.anthropic.com/" ++ (rest ++ se))) ∧
    route { method := m, path := "/gemini/" ++ rest, search := se, query := q, headers := hs }
      = .proxy (some ("https://generativelanguage.googleapis.com/" ++ (rest ++ se))) := by
  refine ⟨?_, ?_, ?_, ?_, ?_⟩
  · have hlow : jsToLower ("/openai/" ++ rest) = "/openai/" ++ jsToLower rest := by
      rw [jsToLower_append]; rfl
    have hne1 : "/openai/" ++ jsToLower rest ≠ "/health" := append_ne_lit _ _ _ (by decide)
    have hne2 : "/openai/" ++ jsToLower rest ≠ "/health/" := append_ne_lit _ _ _ (by decide)
    have hne3 : "/openai/" ++ jsToLower rest ≠ "/" := append_ne_lit _ _ _ (by decide)
    have hne3b : "/openai/" ++ jsToLower rest ≠ "//" := append_ne_lit _ _ _ (by decide)
    have hsw : jsStartsWith ("/openai/" ++ jsToLower rest) "/openai/" = true :=
      jsStartsWith_append_true _ _ _ (by decide)
    have hstrip : jsStripLead "/openai" ("/openai/" ++ (rest ++ se)) = "/" ++ (rest ++ se) := by
      rw [jsStripLead_append _ _ _ (by decide)]; rfl
    have hm : ("https://api.openai.com" : String) ++ "/" = "https://api.openai.com/" := by decide
    simp only [route, Request.originalUrl, hlow, hne1, hne2, hne3, hne3b, hsw]
    simp only [strAppend_assoc "/openai/" rest se]
    simp only [or_self, and_false, and_true, if_false, if_true, hstrip]
    rw [← strAppend_assoc, hm]
  · have hlow : jsToLower ("/openrouter/" ++ rest) = "/openrouter/" ++ jsToLower rest := by
      rw [jsToLower_append]; rfl
    have hne1 : "/openrouter/" ++ jsToLower rest ≠ "/health" := append_ne_lit _ _ _ (by decide)
    have hne2 : "/openrouter/" ++ jsToLower rest ≠ "/health/" := append_ne_lit _ _ _ (by decide)
    have hne3 : "/openrouter/" ++ jsToLower rest ≠ "/" := append_ne_lit _ _ _ (by decide)
    have hne3b : "/openrouter/" ++ jsToLower rest ≠ "//" := append_ne_lit _ _ _ (by decide)
    have hp1 : jsStartsWith ("/openrouter/" ++ jsToLower rest) "/openai/" = false :=
      jsStartsWith_append_false _ _ _ (by decide)
    have hsw : jsStartsWith ("/openrouter/" ++ jsToLower rest) "/openrouter/" = true :=
      jsStartsWith_append_true _ _ _ (by decide)
    have hstrip : jsStripLead "/openrouter" ("/openrouter/" ++ (rest ++ se))
        = "/" ++ (rest ++ se) := by
      rw [jsStripLead_append _ _ _ (by decide)]; rfl
    have hm : ("https://openrouter.ai" : String) ++ "/" = "https://openrouter.ai/" := by decide
    simp only [route, Request.originalUrl, hlow, hne1, hne2, hne3, hne3b, hp1, hsw]
    simp only [strAppend_assoc "/openrouter/" rest se]
    simp only [or_self, and_false, and_true, if_false, if_true, Bool.false_eq_true, hstrip]
    rw [← strAppend_assoc, hm]
  · have hlow : jsToLower ("/perplexity/" ++ rest) = "/perplexity/" ++ jsToLower rest := by
      rw [jsToLower_append]; rfl
    have hne1 : "/perplexity/" ++ jsToLower rest ≠ "/health" := append_ne_lit _ _ _ (by decide)
    have hne2 : "/perplexity/" ++ jsToLower rest ≠ "/health/" := append_ne_lit _ _ _ (by decide)
    have hne3 : "/perplexity/" ++ jsToLower rest ≠ "/" := append_ne_lit _ _ _ (by decide)
    have hne3b : "/perplexity/" ++ jsToLower rest ≠ "//" := append_ne_lit _ _ _ (by decide)
    have hp1 : jsStartsWith ("/perplexity/" ++ jsToLower rest) "/openai/" = false :=
      jsStartsWith_append_false _ _ _ (by decide)
    have hp2 : jsStartsWith ("/perplexity/" ++ jsToLower rest) "/openrouter/" = false :=
      jsStartsWith_append_false _ _ _ (by decide)
    have hsw : jsStartsWith ("/perplexity/" ++ jsToLower rest) "/perplexity/" = true :=
      jsStartsWith_append_true _ _ _ (by decide)
    have hstrip : jsStripLead "/perplexity" ("/perplexity/" ++ (rest ++ se))
        = "/" ++ (rest ++ se) := by
      rw [jsStripLead_append _ _ _ (by decide)]; rfl
    have hm : ("https://api.perplexity.ai" : String) ++ "/" = "https://api.perplexity.ai/" := by
      decide
    simp only [route, Request.originalUrl, hlow, hne1, hne2, hne3, hne3b, hp1, hp2, hsw]
    simp only [strAppend_assoc "/perplexity/" rest se]
    simp only [or_self, and_false, and_true, if_false, if_true, Bool.false_eq_true, hstrip]
    rw [← strAppend_assoc, hm]
  · have hlow : jsToLower ("/anthropic/" ++ rest) = "/anthropic/" ++ jsToLower rest := by
      rw [jsToLower_append]; rfl
    have hne1 : "/anthropic/" ++ jsToLower rest ≠ "/health" := append_ne_lit _ _ _ (by decide)
    have hne2 : "/anthropic/" ++ jsToLower rest ≠ "/health/" := append_ne_lit _ _ _ (by decide)
    have hne3 : "/anthropic/" ++ jsToLower rest ≠ "/" := append_ne_lit _ _ _ (by decide)
    have hne3b : "/anthropic/" ++ jsToLower rest ≠ "//" := append_ne_lit _ _ _ (by decide)
    have hp1 : jsStartsWith ("/anthropic/" ++ jsToLower rest) "/openai/" = false :=
      jsStartsWith_append_false _ _ _ (by decide)
    have hp2 : jsStartsWith ("/anthropic/" ++ jsToLower rest) "/openrouter/" = false :=
      jsStartsWith_append_false _ _ _ (by decide)
    have hp3 : jsStartsWith ("/anthropic/" ++ jsToLower rest) "/perplexity/" = false :=
      jsStartsWith_append_false _ _ _ (by decide)
    have hsw : jsStartsWith ("/anthropic/" ++ jsToLower rest) "/anthropic/" = true :=
      jsStartsWith_append_true _ _ _ (by decide)
    have hstrip : jsStripLead "/anthropic" ("/anthropic/" ++ (rest ++ se))
        = "/" ++ (rest ++ se) := by
      rw [jsStripLead_append _ _ _ (by decide)]; rfl
    have hm : ("https://api.anthropic.com" : String) ++ "/" = "https://api.anthropic.com/" := by
      decide
    simp only [route, Request.originalUrl, hlow, hne1, hne2, hne3, hne3b, hp1, hp2, hp3, hsw]
    simp only [strAppend_assoc "/anthropic/" rest se]
    simp only [or_self, and_false, and_true, if_false, if_true, Bool.false_eq_true, hstrip]
    rw [← strAppend_assoc, hm]
  · have hlow : jsToLower ("/gemini/" ++ rest) = "/gemini/" ++ jsToLower rest := by
      rw [jsToLower_append]; rfl
    have hne1 : "/gemini/" ++ jsToLower rest ≠ "/health" := append_ne_lit _ _ _ (by decide)
    have hne2 : "/gemini/" ++ jsToLower rest ≠ "/health/" := append_ne_lit _ _ _ (by decide)
    have hne3 : "/gemini/" ++ jsToLower rest ≠ "/" := append_ne_lit _ _ _ (by decide)
    have hne3b : "/gemini/" ++ jsToLower rest ≠ "//" := append_ne_lit _ _ _ (by decide)
    have hp1 : jsStartsWith ("/gemini/" ++ jsToLower rest) "/openai/" = false :=
      jsStartsWith_append_false _ _ _ (by decide)
    have hp2 : jsStartsWith ("/gemini/" ++ jsToLower rest) "/openrouter/" = false :=
      jsStartsWith_append_false _ _ _ (by decide)
    have hp3 : jsStartsWith ("/gemini/" ++ jsToLower rest) "/perplexity/" = false :=
      jsStartsWith_append_false _ _ _ (by decide)
    have hp4 : jsStartsWith ("/gemini/" ++ jsToLower rest) "/anthropic/" = false :=
      jsStartsWith_append_false _ _ _ (by decide)
    have hsw : jsStartsWith ("/gemini/" ++ jsToLower rest) "/gemini/" = true :=
      jsStartsWith_append_true _ _ _ (by decide)
    have hstrip : jsStripLead "/gemini" ("/gemini/" ++ (rest ++ se)) = "/" ++ (rest ++ se) := by
      rw [jsStripLead_append _ _ _ (by decide)]; rfl
    have hm : ("https://generativelanguage.googleapis.com" : String) ++ "/"
        = "https://generativelanguage.googleapis.com/" := by decide
    simp only [route, Request.originalUrl, hlow, hne1, hne2, hne3, hne3b, hp1, hp2, hp3, hp4, hsw]
    simp only [strAppend_assoc "/gemini/" rest se]
    simp only [or_self, and_false, and_true, if_false, if_true, Bool.false_eq_true, hstrip]
    rw [← strAppend_assoc, hm]

/-- C10: a non-CONNECT request matching no provider prefix, not `/proxy` or
`/proxy/<suffix>`, not `/` or `/health` (nor their trailing-slash variants
`//` and `/health/`, which Express's non-strict literal routes also serve),
and carrying no `X-Target-URL` header, gets the catch-all `404` JSON error
(with the auth gate passing, here because the shared secret is unset). -/
theorem c10_catch_all_404 (req : Request)
    (h1 : jsToLower req.path ≠ "/health") (h2 : jsToLower req.path ≠ "/health/")
    (h3 : jsToLower req.path ≠ "/") (h3b : jsToLower req.path ≠ "//")
    (h4 : jsStartsWith (jsToLower req.path) "/openai/" = false)
    (h5 : jsStartsWith (jsToLower req.path) "/openrouter/" = false)
    (h6 : jsStartsWith (jsToLower req.path) "/perplexity/" = false)
    (h7 : jsStartsWith (jsToLower req.path) "/anthropic/" = false)
    (h8 : jsStartsWith (jsToLower req.path) "/gemini/" = false)
    (h9 : jsToLower req.path ≠ "/proxy") (h10 : jsToLower req.path ≠ "/proxy/")
    (h11 : jsStartsWith (jsToLower req.path) "/proxy/" = false)
    (h12 : hdr req "x-target-url" = none) :
    handle ⟨""⟩ req = .respond 404 (some "Unknown route") := by
  have hrp : requirePassword ⟨""⟩ req = none := by simp [requirePassword]
  simp [handle, hrp, route, h1, h2, h3, h3b, h4, h5, h6, h7, h8, h9, h10, h11, h12]

/-- Witness for C10 at a concrete unroutable request. -/
theorem c10_catch_all_404_witness :
    handle ⟨""⟩ { method := "GET", path := "/nope", search := "", query := [], headers := [] }
      = .respond 404 (some "Unknown route") :=
  c10_catch_all_404 _ (by decide) (by decide) (by decide) (by decide) (by decide) (by decide)
    (by decide) (by decide) (by decide) (by decide) (by decide) (by decide) (by decide)

/-- Witness for C7 at concrete inputs. -/
theorem c7_upstream_error_handling_witness :
    onFwdEvent false (.upstreamError "connect ECONNREFUSED")
        = [.logError "connect ECONNREFUSED",
           .sendStatus 502 ("Proxy error: " ++ "connect ECONNREFUSED")] ∧
    onFwdEvent false .upstreamTimeout
        = [.destroyOutbound, .sendStatus 504 "Proxy timeout"] ∧
    ∀ a ∈ onFwdEvent true (.upstreamError "reset"), ∀ st e, a ≠ FwdAct.sendStatus st e :=
  ⟨(c7_upstream_error_handling false "connect ECONNREFUSED").1 rfl,
   (c7_upstream_error_handling false "x").2.2.1 rfl,
   fun a ha st e => (c7_upstream_error_handling true "reset").2.2.2 rfl _ a ha st e⟩

end ProxyRender
